import Mathlib

/-!
Shallow embedding of `SysDBoard/dashboard.py` (the Watcher system-resource
dashboard).  Pure functions of the script are translated directly; the
stateful panel lifecycle is modelled as explicit state passing over a
`PanelState` record and a `Cfg` map (the persisted `widget_config.json`
contents), and the background refresh loop is modelled as a fold over the
list of outcomes of the successive metric-acquisition calls.
-/

/-- One entry of `widget_config.json`: `{"enabled": ..., "x": ..., "y": ...}`. -/
structure PanelConfig where
  enabled : Bool
  x : Int
  y : Int
deriving DecidableEq, Repr

/-- The persisted configuration, as a map from widget key (e.g. `"cpu_widget"`)
to its `PanelConfig` entry.  `none` models a key absent from the JSON dict.
(The separate `refresh_rate` entry plays no role in the claims modelled here.) -/
def Cfg : Type := String → Option PanelConfig

/-- The color dictionary built inside `get_risk_color` for one theme. -/
structure Palette where
  red : String
  orange : String
  yellow : String
  green : String
  defaultColor : String
deriving DecidableEq, Repr

/-- The `"dark"` theme colors of `get_risk_color`. -/
def darkColors : Palette :=
  { red := "#ff5555", orange := "#ffae42", yellow := "#ffff55",
    green := "#55ff55", defaultColor := "#ffffff" }

/-- The `"light"` (else-branch) theme colors of `get_risk_color`. -/
def lightColors : Palette :=
  { red := "#b22222", orange := "#ff8c00", yellow := "#bdb76b",
    green := "#228b22", defaultColor := "#222222" }

/-- Theme selection at the top of `get_risk_color`:
`if theme == "dark": colors = {...} else: colors = {...}`. -/
def paletteOf (theme : String) : Palette :=
  if theme = "dark" then darkColors else lightColors

/-- Function `get_risk_level(value, thresholds)` from `dashboard.py`:
three-tier `(label, color)` classification against `{medium, high}` thresholds. -/
def get_risk_level (value medium high : ℚ) : String × String :=
  if value ≥ high then ("High Risk", "red")
  else if value ≥ medium then ("Medium Risk", "orange")
  else ("Low Risk", "green")

/-- Function `get_risk_color(widget_name, value, theme)` from `dashboard.py`:
per-resource four-tier presentation color. -/
def get_risk_color (widget_name : String) (value : ℚ) (theme : String) : String :=
  let colors := paletteOf theme
  if widget_name = "cpu" then
    if value > 75 then colors.red
    else if value > 50 then colors.orange
    else if value > 25 then colors.yellow
    else colors.green
  else if widget_name = "ram" ∨ widget_name = "disk" then
    if value > 90 then colors.red
    else if value > 75 then colors.orange
    else if value > 50 then colors.yellow
    else colors.green
  else if widget_name = "battery" then
    if value < 20 then colors.red
    else if value < 50 then colors.orange
    else if value < 75 then colors.yellow
    else colors.green
  else colors.defaultColor

/-- Value of a run of decimal digit characters. -/
def digitsToNat (cs : List Char) : ℕ :=
  cs.foldl (fun a c => 10 * a + (c.toNat - 48)) 0

/-- Python's builtin ``float(str)``, restricted to
the plain decimal forms the metric sources produce
(optional sign, digits, optional fractional part): returns `none` exactly when
the string is not such a decimal literal (so `float` would raise `ValueError`,
e.g. on `"N/A"`). -/
def pyFloat (s : String) : Option ℚ :=
  let cs := s.toList
  let signed : ℤ × List Char :=
    match cs with
    | '-' :: t => (-1, t)
    | '+' :: t => (1, t)
    | _ => (1, cs)
  let sign := signed.1
  let body := signed.2
  let intPart := body.takeWhile Char.isDigit
  let rest := body.dropWhile Char.isDigit
  match rest with
  | [] =>
      if intPart.isEmpty then none
      else some (mkRat (sign * (digitsToNat intPart : ℤ)) 1)
  | '.' :: frac =>
      if frac.all Char.isDigit ∧ ¬(intPart.isEmpty ∧ frac.isEmpty) then
        some (mkRat
          (sign * ((digitsToNat intPart * 10 ^ frac.length + digitsToNat frac : ℕ) : ℤ))
          (10 ^ frac.length))
      else none
  | _ => none

/-- Maximal whitespace-separated chunks of a character list (empty chunks
included at separator runs; consumers drop them). -/
def wsChunks : List Char → List (List Char)
  | [] => []
  | c :: rest =>
      let ts := wsChunks rest
      if c.isWhitespace then [] :: ts
      else
        match ts with
        | [] => [[c]]
        | t :: more => (c :: t) :: more

/-- Python's `str.split()` with no argument: split on whitespace runs,
dropping empty tokens. -/
def pySplit (s : String) : List String :=
  ((wsChunks s.toList).filter (fun t => ¬ t.isEmpty)).map String.mk

/-- The expression `value.split()[0]` fed to `float`: an empty token list (`IndexError`) or
an unparsable first token (`ValueError`) both surface as `none`
(an exception in the source). -/
def floatFirstToken (s : String) : Option ℚ :=
  (pySplit s).head? >>= pyFloat

/-- Python's `round`-half-to-even on a rational, as used by the `"{:.0f}"`
format specifier: `f` is the floor and `r/den` the fractional part. -/
def pyRound (q : ℚ) : ℤ :=
  let d : ℤ := (q.den : ℤ)
  let f : ℤ := q.num.fdiv d
  let r : ℤ := q.num.fmod d
  if 2 * r < d then f
  else if d < 2 * r then f + 1
  else if f % 2 = 0 then f else f + 1

/-- Python's `f"{v:.0f}"` formatting of a metric value. -/
def pyFmt0 (q : ℚ) : String := toString (pyRound q)

/-- Function `get_battery_status()` from `dashboard.py`: formats the percentage field of
`battery.get_state()` as `f"{...} %"`, and returns the sentinel `"N/A"` when
reading the battery raises (no battery present).  The acquired percentage is
modelled as the string Python's f-string renders for it (`none` = unavailable). -/
def get_battery_status (percentage : Option String) : String :=
  match percentage with
  | some p => p ++ " %"
  | none => "N/A"

/-- The CPU branch of `get_risk_summary`: the line appended for reading `cpu`
(`none` when no line qualifies). -/
def cpuLine (cpu : ℚ) : Option String :=
  if cpu ≥ 90 then some ("CPU usage is CRITICAL (" ++ pyFmt0 cpu ++ "%)")
  else if cpu ≥ 70 then some ("CPU usage is HIGH (" ++ pyFmt0 cpu ++ "%)")
  else if cpu ≥ 50 then some ("CPU usage is MODERATE (" ++ pyFmt0 cpu ++ "%)")
  else none

/-- The RAM branch of `get_risk_summary`. -/
def ramLine (ram : ℚ) : Option String :=
  if ram ≥ 90 then some ("RAM usage is CRITICAL (" ++ pyFmt0 ram ++ "%)")
  else if ram ≥ 70 then some ("RAM usage is HIGH (" ++ pyFmt0 ram ++ "%)")
  else if ram ≥ 50 then some ("RAM usage is MODERATE (" ++ pyFmt0 ram ++ "%)")
  else none

/-- The Disk branch of `get_risk_summary`. -/
def diskLine (disk : ℚ) : Option String :=
  if disk ≥ 90 then some ("Disk usage is CRITICAL (" ++ pyFmt0 disk ++ "%)")
  else if disk ≥ 80 then some ("Disk usage is HIGH (" ++ pyFmt0 disk ++ "%)")
  else if disk ≥ 50 then some ("Disk usage is MODERATE (" ++ pyFmt0 disk ++ "%)")
  else none

/-- The Battery branch of `get_risk_summary` (inverted: low value is worse). -/
def batteryLine (batt : ℚ) : Option String :=
  if batt ≤ 10 then some ("Battery is CRITICALLY LOW (" ++ pyFmt0 batt ++ "%)")
  else if batt ≤ 30 then some ("Battery is LOW (" ++ pyFmt0 batt ++ "%)")
  else if batt ≤ 75 then some ("Battery is MODERATE (" ++ pyFmt0 batt ++ "%)")
  else none

/-- Index of the branch of `batteryLine`'s cascade that fires (3 = CRITICALLY
LOW, 2 = LOW, 1 = MODERATE, 0 = no line): the severity tier of the battery
reading in `get_risk_summary`. -/
def batteryTier (batt : ℚ) : ℕ :=
  if batt ≤ 10 then 3
  else if batt ≤ 30 then 2
  else if batt ≤ 75 then 1
  else 0

/-- Function `get_risk_summary()` from `dashboard.py`, as a function of the enabled
flags read from `config` and of the strings the four metric sources return
on this tick.  Each enabled resource parses `float(<source>().split()[0])` —
a parse failure there is an uncaught exception, modelled as `none` — and
appends at most one line; the battery is consulted only when its source
does not return `"N/A"`.  The result joins the lines with `"\n"`, or is the
fixed sentinel when no line qualified. -/
def get_risk_summary (cpuEnabled ramEnabled diskEnabled battEnabled : Bool)
    (cpuStr ramStr diskStr battStr : String) : Option String := do
  let cpuLines ←
    if cpuEnabled then (floatFirstToken cpuStr).map (fun v => (cpuLine v).toList)
    else pure []
  let ramLines ←
    if ramEnabled then (floatFirstToken ramStr).map (fun v => (ramLine v).toList)
    else pure []
  let diskLines ←
    if diskEnabled then (floatFirstToken diskStr).map (fun v => (diskLine v).toList)
    else pure []
  let battLines ←
    if battEnabled && battStr ≠ "N/A" then
      (floatFirstToken battStr).map (fun v => (batteryLine v).toList)
    else pure []
  let summary := cpuLines ++ ramLines ++ diskLines ++ battLines
  pure (if summary.isEmpty then "All systems normal."
        else String.intercalate "\n" summary)

/-- Runtime state of one `ResourceWidget`: its fixed `name`, the `enabled`
flag, whether the Toplevel window exists (`self.root is not None`), and the
`running` flag of the refresh loop. -/
structure PanelState where
  name : String
  enabled : Bool
  root : Bool
  running : Bool
deriving DecidableEq, Repr

/-- Method `ResourceWidget.create_widget`: returns immediately when disabled;
otherwise builds the Toplevel window, sets `running = True` and starts the
update thread.  (Theme/geometry details are not modelled.) -/
def PanelState.create_widget (p : PanelState) : PanelState :=
  if ¬p.enabled then p
  else { p with root := true, running := true }

/-- Method `ResourceWidget.stop`: clears `running` and, if a window exists, destroys
it (`self.root = None`). -/
def PanelState.stop (p : PanelState) : PanelState :=
  { p with running := false, root := false }

/-- Method `ResourceWidget.toggle(enable)`: records the flag on the widget, writes it
through to `config[f"{name}_widget"]["enabled"]` and saves the config (the
returned `Cfg` is the persisted state), then creates the window if enabling
with no window, or stops if disabling with a window. -/
def PanelState.toggle (p : PanelState) (cfg : Cfg) (enable : Bool) :
    PanelState × Cfg :=
  let p := { p with enabled := enable }
  let cfg : Cfg := fun k =>
    if k = p.name ++ "_widget" then
      (cfg k).map (fun pc => { pc with enabled := enable })
    else cfg k
  if enable && !p.root then (p.create_widget, cfg)
  else if !enable && p.root then (p.stop, cfg)
  else (p, cfg)

/-- A widget is in the spec's `Running` state when its refresh loop is active
and its window exists; `create_widget` establishes both, `stop` clears both. -/
def PanelState.isRunning (p : PanelState) : Bool :=
  p.running && p.root

/-- Function `restart_all()` from `dashboard.py`: for every widget, `stop()` then, if
still enabled, `create_widget()` (the extra `overrideredirect` call has no
modelled effect). -/
def restart_all (widgets : List PanelState) : List PanelState :=
  widgets.map (fun w =>
    let w := w.stop
    if w.enabled then w.create_widget else w)

/-- One rendering handed to the Tk label. -/
inductive Render where
  | normal (text color : String) : Render
  | err (text : String) : Render
deriving DecidableEq, Repr

/-- The `try`/`except` around `float(value.split()[0])` in
`ResourceWidget.update`: any exception leaves `percent = 0`. -/
def tickPercent (value : String) : ℚ :=
  (floatFirstToken value).getD 0

/-- The body of one successful iteration of `ResourceWidget.update`: the text
is `f"{title}\n{value}"`; cpu/ram/disk/battery color by `get_risk_color` on
the parsed percent, the risk widget and any other widget use the theme's
fixed foreground. -/
def updateTick (name title theme value : String) : Render :=
  if name = "risk" then
    Render.normal (title ++ "\n" ++ value)
      (if theme = "light" then "#222222" else "#ffffff")
  else if name = "cpu" ∨ name = "ram" ∨ name = "disk" ∨ name = "battery" then
    Render.normal (title ++ "\n" ++ value)
      (get_risk_color name (tickPercent value) theme)
  else
    Render.normal (title ++ "\n" ++ value)
      (if theme = "light" then "#222222" else "#ffffff")

/-- Method `ResourceWidget.update`: the refresh loop, as a function of the outcomes
of the successive `get_data_func()` calls (`Except.error e` = the call raised
`e`).  Returns the renders handed to the label and the number of acquisition
calls made.  A successful tick renders and continues; a raised exception
renders `f"Error: {e}"` in red and `break`s — the loop returns normally
(the exception does not propagate) and consumes nothing further.  The list
ending models the loop's `while self.running and self.root` guard turning
false externally. -/
def PanelState.update (name title theme : String) :
    List (Except String String) → List Render × ℕ
  | [] => ([], 0)
  | Except.error e :: _ => ([Render.err ("Error: " ++ e)], 1)
  | Except.ok v :: rest =>
      let next := PanelState.update name title theme rest
      (updateTick name title theme v :: next.1, next.2 + 1)

/-- The widget-key order of `initialize_grid_positions`. -/
def gridWidgetNames : List String :=
  ["cpu_widget", "ram_widget", "disk_widget", "battery_widget",
   "risk_widget", "network_widget"]

/-- The loop body of `initialize_grid_positions` for one `(name, (x, y))`
pair, acting on that name's config entry: a panel present and still at
`(0, 0)` gets the slot, a panel present elsewhere is kept, an absent panel is
added enabled at the slot. -/
def gridAssign (entry : Option PanelConfig) (x y : ℤ) : Option PanelConfig :=
  match entry with
  | some pc => if pc.x = 0 ∧ pc.y = 0 then some { pc with x := x, y := y } else some pc
  | none => some { enabled := true, x := x, y := y }

/-- One iteration of the `for name, (x, y) in zip(widget_names, positions)`
loop: a dict update at one key. -/
def gridStep (c : Cfg) (np : String × ℤ × ℤ) : Cfg :=
  fun k => if k = np.1 then gridAssign (c np.1) np.2.1 np.2.2 else c k

/-- Function `initialize_grid_positions()` from `dashboard.py`, as a function of the
primary screen width: a single row of six 200px-wide slots at `y = 10`,
ending 10px from the right screen edge, assigned in
cpu/ram/disk/battery/risk/network order to panels never moved (still at
`(0, 0)`) or absent; the updated config is then saved. -/
def initialize_grid_positions (screen_width : ℤ) (cfg : Cfg) : Cfg :=
  let widget_width : ℤ := 200
  let margin : ℤ := 10
  let total_width : ℤ := 6 * widget_width
  let start_x : ℤ := screen_width - total_width - margin
  let start_y : ℤ := margin
  let positions : List (ℤ × ℤ) :=
    (List.range 6).map (fun i => (start_x + (i : ℤ) * widget_width, start_y))
  (gridWidgetNames.zip positions).foldl gridStep cfg

/-- C5: for ascending thresholds `medium ≤ high`, `get_risk_level` classifies
into the High tier exactly when `value ≥ high`, the Medium tier exactly when
`medium ≤ value < high`, and the Low tier exactly when `value < medium`. -/
theorem get_risk_level_three_tier (value medium high : ℚ) (h : medium ≤ high) :
    ((get_risk_level value medium high).1 = "High Risk" ↔ high ≤ value) ∧
    ((get_risk_level value medium high).1 = "Medium Risk" ↔
      medium ≤ value ∧ value < high) ∧
    ((get_risk_level value medium high).1 = "Low Risk" ↔ value < medium) := by
  unfold get_risk_level
  split_ifs with h1 h2 <;> refine ⟨?_, ?_, ?_⟩ <;> simp
  all_goals
    first
    | linarith
    | (constructor <;> linarith)
    | (intro hh; linarith)

/-- Witness for `get_risk_level_three_tier` at value 60, thresholds 50/70. -/
theorem get_risk_level_three_tier_w :
    (50 : ℚ) ≤ 70 ∧
    (((get_risk_level 60 50 70).1 = "High Risk" ↔ (70 : ℚ) ≤ 60) ∧
     ((get_risk_level 60 50 70).1 = "Medium Risk" ↔
       (50 : ℚ) ≤ 60 ∧ (60 : ℚ) < 70) ∧
     ((get_risk_level 60 50 70).1 = "Low Risk" ↔ (60 : ℚ) < 50)) :=
  ⟨by decide, get_risk_level_three_tier 60 50 70 (by decide)⟩

/-- C6: the battery severity tier of `get_risk_summary` is monotonically
inverted (a lower battery percentage is at least as severe), its cut points
are 10, 30 and 75, and the tier is exactly the branch of `batteryLine`'s
cascade that fires. -/
theorem battery_tier_inverted :
    (∀ v1 v2 : ℚ, v1 < v2 → batteryTier v2 ≤ batteryTier v1) ∧
    (∀ v : ℚ, batteryTier v = 3 ↔ v ≤ 10) ∧
    (∀ v : ℚ, batteryTier v = 2 ↔ 10 < v ∧ v ≤ 30) ∧
    (∀ v : ℚ, batteryTier v = 1 ↔ 30 < v ∧ v ≤ 75) ∧
    (∀ v : ℚ, (batteryLine v).isSome = true ↔ batteryTier v ≠ 0) := by
  refine ⟨?_, ?_, ?_, ?_, ?_⟩ <;> intro v
  · intro v2 hlt
    unfold batteryTier
    split_ifs <;> first | omega | linarith
  all_goals
    (simp only [batteryTier, batteryLine]; split_ifs) <;> simp <;>
      first | linarith | (constructor <;> linarith) | (intro hh; linarith)

/-- Witness for `battery_tier_inverted`: 5% is classified at least as
severely as 20%. -/
theorem battery_tier_inverted_w :
    (5 : ℚ) < 20 ∧ batteryTier 20 ≤ batteryTier 5 :=
  ⟨by decide, battery_tier_inverted.1 5 20 (by decide)⟩

/-- C2 counterexample: with all panels enabled and readings CPU = 95%,
RAM = 60%, Disk = 85%, battery source `"N/A"`, the risk summary is NOT the
two lines the spec example claims — the code also emits a RAM MODERATE line
since 60 ≥ 50. -/
theorem risk_summary_example_spec_counterexample :
    get_risk_summary true true true true "95.0 %" "60.0 %" "85.0 %" "N/A"
      ≠ some ("CPU usage is CRITICAL (95%)" ++ "\n" ++
              "Disk usage is HIGH (85%)") := by
  decide

/-- C2 amended: with all panels enabled and readings CPU = 95%, RAM = 60%,
Disk = 85%, battery source `"N/A"`, the risk summary is exactly the three
lines CPU CRITICAL, RAM MODERATE and Disk HIGH, joined in CPU/RAM/Disk/Battery
order, with no battery line. -/
theorem risk_summary_example_actual :
    get_risk_summary true true true true "95.0 %" "60.0 %" "85.0 %" "N/A"
      = some ("CPU usage is CRITICAL (95%)" ++ "\n" ++
              "RAM usage is MODERATE (60%)" ++ "\n" ++
              "Disk usage is HIGH (85%)") := by
  decide

/-- C8: when the battery source is unavailable it returns the `"N/A"`
sentinel, and then `get_risk_summary` behaves exactly as if the battery
panel were disabled — no battery line is aggregated.  In particular the
reading is not treated as zero, which would have produced the CRITICALLY LOW
line shown. -/
theorem risk_summary_excludes_na_battery :
    get_battery_status none = "N/A" ∧
    (∀ (cpuE ramE diskE battE : Bool) (cpuS ramS diskS : String),
      get_risk_summary cpuE ramE diskE battE cpuS ramS diskS
          (get_battery_status none)
        = get_risk_summary cpuE ramE diskE false cpuS ramS diskS
          (get_battery_status none)) ∧
    batteryLine 0 = some "Battery is CRITICALLY LOW (0%)" := by
  refine ⟨rfl, ?_, by decide⟩
  intro cpuE ramE diskE battE cpuS ramS diskS
  simp [get_risk_summary, get_battery_status]

/-- C10 (implicit): in the cpu/ram/disk/battery refresh branch, a first token
that does not parse as a float silently defaults the classified percent to 0,
so the battery panel's `"N/A"` reading renders as a normal (non-error) tick
with the most severe battery color — red — for either theme; the parse
failure never aborts the tick. -/
theorem unparsable_token_defaults_to_zero (s : String)
    (hs : floatFirstToken s = none) :
    tickPercent s = 0 ∧
    (∀ title theme : String,
      updateTick "battery" title theme "N/A"
        = Render.normal (title ++ "\n" ++ "N/A") (paletteOf theme).red) := by
  refine ⟨by simp [tickPercent, hs], ?_⟩
  intro title theme
  have hna : floatFirstToken "N/A" = none := by decide
  simp [updateTick, tickPercent, hna, get_risk_color]

/-- Witness for `unparsable_token_defaults_to_zero` at the battery source's
actual `"N/A"` sentinel. -/
theorem unparsable_token_defaults_to_zero_w :
    floatFirstToken "N/A" = none ∧
    (tickPercent "N/A" = 0 ∧
     (∀ title theme : String,
       updateTick "battery" title theme "N/A"
         = Render.normal (title ++ "\n" ++ "N/A") (paletteOf theme).red)) :=
  ⟨by decide, unparsable_token_defaults_to_zero "N/A" (by decide)⟩

/-- C1: for every panel, if the k-th metric acquisition raises exception `e`
after `k - 1` successful ticks, the refresh loop renders every successful
tick, then renders exactly one error indicator whose text carries the failure
reason (`f"Error: {e}"`), and halts: the loop returns normally (the exception
is contained) having made exactly `k` acquisition calls, never touching the
remaining outcomes. -/
theorem update_halts_on_acquisition_error (name title theme e : String)
    (oks : List String) (rest : List (Except String String)) :
    PanelState.update name title theme
        (oks.map Except.ok ++ Except.error e :: rest)
      = (oks.map (updateTick name title theme) ++ [Render.err ("Error: " ++ e)],
         oks.length + 1) := by
  induction oks with
  | nil => simp [PanelState.update]
  | cons v vs ih => simp [PanelState.update, ih]

/-- C3: method `toggle(true)` sets and persists `enabled = true` and reconciles by
creating the surface (creating the loop too when starting from no window);
an immediately following `toggle(false)` leaves the panel exactly Stopped —
no window, loop flag false, `enabled = false` — with `enabled = false`
written through to the persisted config entry. -/
theorem toggle_on_then_off (p : PanelState) (cfg : Cfg) (pc : PanelConfig)
    (hpc : cfg (p.name ++ "_widget") = some pc) :
    (p.toggle cfg true).1.enabled = true ∧
    (p.toggle cfg true).1.root = true ∧
    (p.root = false → (p.toggle cfg true).1.running = true) ∧
    (p.toggle cfg true).2 (p.name ++ "_widget") = some { pc with enabled := true } ∧
    ((p.toggle cfg true).1.toggle (p.toggle cfg true).2 false).1
      = { p with enabled := false, root := false, running := false } ∧
    ((p.toggle cfg true).1.toggle (p.toggle cfg true).2 false).2
        (p.name ++ "_widget")
      = some { pc with enabled := false } := by
  cases hr : p.root <;>
    simp [PanelState.toggle, PanelState.create_widget, PanelState.stop, hr, hpc]

/-- Witness for `toggle_on_then_off` on a stopped cpu panel whose config entry
is present. -/
theorem toggle_on_then_off_w :
    ((fun k => if k = "cpu_widget" then some (⟨true, 0, 0⟩ : PanelConfig)
               else none) : Cfg)
        ((⟨"cpu", false, false, false⟩ : PanelState).name ++ "_widget")
      = some ⟨true, 0, 0⟩ ∧
    (((⟨"cpu", false, false, false⟩ : PanelState).toggle
        (fun k => if k = "cpu_widget" then some ⟨true, 0, 0⟩ else none)
        true).1.enabled = true ∧
     ((⟨"cpu", false, false, false⟩ : PanelState).toggle
        (fun k => if k = "cpu_widget" then some ⟨true, 0, 0⟩ else none)
        true).1.root = true ∧
     ((⟨"cpu", false, false, false⟩ : PanelState).root = false →
      ((⟨"cpu", false, false, false⟩ : PanelState).toggle
        (fun k => if k = "cpu_widget" then some ⟨true, 0, 0⟩ else none)
        true).1.running = true) ∧
     ((⟨"cpu", false, false, false⟩ : PanelState).toggle
        (fun k => if k = "cpu_widget" then some ⟨true, 0, 0⟩ else none)
        true).2 ((⟨"cpu", false, false, false⟩ : PanelState).name ++ "_widget")
       = some { (⟨true, 0, 0⟩ : PanelConfig) with enabled := true } ∧
     (((⟨"cpu", false, false, false⟩ : PanelState).toggle
          (fun k => if k = "cpu_widget" then some ⟨true, 0, 0⟩ else none)
          true).1.toggle
        ((⟨"cpu", false, false, false⟩ : PanelState).toggle
          (fun k => if k = "cpu_widget" then some ⟨true, 0, 0⟩ else none)
          true).2 false).1
       = { (⟨"cpu", false, false, false⟩ : PanelState) with
           enabled := false, root := false, running := false } ∧
     (((⟨"cpu", false, false, false⟩ : PanelState).toggle
          (fun k => if k = "cpu_widget" then some ⟨true, 0, 0⟩ else none)
          true).1.toggle
        ((⟨"cpu", false, false, false⟩ : PanelState).toggle
          (fun k => if k = "cpu_widget" then some ⟨true, 0, 0⟩ else none)
          true).2 false).2
        ((⟨"cpu", false, false, false⟩ : PanelState).name ++ "_widget")
       = some { (⟨true, 0, 0⟩ : PanelConfig) with enabled := false }) :=
  ⟨by decide,
   toggle_on_then_off ⟨"cpu", false, false, false⟩
     (fun k => if k = "cpu_widget" then some ⟨true, 0, 0⟩ else none)
     ⟨true, 0, 0⟩ (by decide)⟩

/-- C4: on the registry of the six fixed panels with exactly `"disk"`
disabled and the rest enabled — whatever each panel's current window/loop
state — `restart_all` stops everything and starts only the enabled panels,
ending with exactly five panels Running and one panel Stopped. -/
theorem restart_all_five_running (ws : List PanelState)
    (hnames : ws.map PanelState.name
      = ["cpu", "ram", "disk", "battery", "risk", "network"])
    (hen : ∀ w ∈ ws, w.enabled = decide (w.name ≠ "disk")) :
    ((restart_all ws).filter PanelState.isRunning).length = 5 ∧
    ((restart_all ws).filter (fun w => ¬w.isRunning)).length = 1 := by
  rcases ws with _ | ⟨w1, _ | ⟨w2, _ | ⟨w3, _ | ⟨w4, _ | ⟨w5, _ | ⟨w6, tl⟩⟩⟩⟩⟩⟩ <;>
    simp at hnames
  obtain ⟨h1, h2, h3, h4, h5, h6, htl⟩ := hnames
  subst htl
  have e1 := hen w1 (by simp)
  have e2 := hen w2 (by simp)
  have e3 := hen w3 (by simp)
  have e4 := hen w4 (by simp)
  have e5 := hen w5 (by simp)
  have e6 := hen w6 (by simp)
  rw [h1] at e1; rw [h2] at e2; rw [h3] at e3
  rw [h4] at e4; rw [h5] at e5; rw [h6] at e6
  simp at e1 e2 e3 e4 e5 e6
  simp [restart_all, PanelState.stop, PanelState.create_widget,
    PanelState.isRunning, e1, e2, e3, e4, e5, e6]

/-- Witness for `restart_all_five_running` on a concrete registry with the
disk panel disabled. -/
theorem restart_all_five_running_w :
    ([⟨"cpu", true, false, false⟩, ⟨"ram", true, true, true⟩,
      ⟨"disk", false, true, true⟩, ⟨"battery", true, false, true⟩,
      ⟨"risk", true, true, false⟩,
      (⟨"network", true, false, false⟩ : PanelState)].map PanelState.name
      = ["cpu", "ram", "disk", "battery", "risk", "network"]) ∧
    (((restart_all
        [⟨"cpu", true, false, false⟩, ⟨"ram", true, true, true⟩,
         ⟨"disk", false, true, true⟩, ⟨"battery", true, false, true⟩,
         ⟨"risk", true, true, false⟩, ⟨"network", true, false, false⟩]).filter
        PanelState.isRunning).length = 5 ∧
     ((restart_all
        [⟨"cpu", true, false, false⟩, ⟨"ram", true, true, true⟩,
         ⟨"disk", false, true, true⟩, ⟨"battery", true, false, true⟩,
         ⟨"risk", true, true, false⟩, ⟨"network", true, false, false⟩]).filter
        (fun w => ¬w.isRunning)).length = 1) :=
  ⟨by decide,
   restart_all_five_running
     [⟨"cpu", true, false, false⟩, ⟨"ram", true, true, true⟩,
      ⟨"disk", false, true, true⟩, ⟨"battery", true, false, true⟩,
      ⟨"risk", true, true, false⟩, ⟨"network", true, false, false⟩]
     (by decide) (by decide)⟩

/-- C7: for every value and theme, `get_risk_color` follows the per-resource
four-tier breakpoints — CPU green at/below 25 with ascending breakpoints
25/50/75 up to red; RAM and Disk ascending 50/75/90; Battery descending,
red below 20 with breakpoints 20/50/75; and every widget kind other than
cpu/ram/disk/battery gets the active theme's fixed default color. -/
theorem get_risk_color_four_tier :
    (∀ (v : ℚ) (t : String),
      (get_risk_color "cpu" v t = (paletteOf t).green ↔ v ≤ 25) ∧
      (get_risk_color "cpu" v t = (paletteOf t).yellow ↔ 25 < v ∧ v ≤ 50) ∧
      (get_risk_color "cpu" v t = (paletteOf t).orange ↔ 50 < v ∧ v ≤ 75) ∧
      (get_risk_color "cpu" v t = (paletteOf t).red ↔ 75 < v)) ∧
    (∀ name, name = "ram" ∨ name = "disk" → ∀ (v : ℚ) (t : String),
      (get_risk_color name v t = (paletteOf t).green ↔ v ≤ 50) ∧
      (get_risk_color name v t = (paletteOf t).yellow ↔ 50 < v ∧ v ≤ 75) ∧
      (get_risk_color name v t = (paletteOf t).orange ↔ 75 < v ∧ v ≤ 90) ∧
      (get_risk_color name v t = (paletteOf t).red ↔ 90 < v)) ∧
    (∀ (v : ℚ) (t : String),
      (get_risk_color "battery" v t = (paletteOf t).red ↔ v < 20) ∧
      (get_risk_color "battery" v t = (paletteOf t).orange ↔ 20 ≤ v ∧ v < 50) ∧
      (get_risk_color "battery" v t = (paletteOf t).yellow ↔ 50 ≤ v ∧ v < 75) ∧
      (get_risk_color "battery" v t = (paletteOf t).green ↔ 75 ≤ v)) ∧
    (∀ name, name ∉ ["cpu", "ram", "disk", "battery"] → ∀ (v : ℚ) (t : String),
      get_risk_color name v t = (paletteOf t).defaultColor) := by
  have hpal : ∀ t : String, paletteOf t = darkColors ∨ paletteOf t = lightColors := by
    intro t
    unfold paletteOf
    split_ifs <;> simp
  refine ⟨?_, ?_, ?_, ?_⟩
  · intro v t
    rcases hpal t with hp | hp <;>
      simp only [get_risk_color, hp] <;> simp <;>
      split_ifs <;>
      refine ⟨?_, ?_, ?_, ?_⟩ <;>
      simp [darkColors, lightColors] <;>
      first | linarith | (constructor <;> linarith) | (intro hh; linarith)
  · rintro name (rfl | rfl) <;> intro v t <;>
      rcases hpal t with hp | hp <;>
      simp only [get_risk_color, hp] <;> simp <;>
      split_ifs <;>
      refine ⟨?_, ?_, ?_, ?_⟩ <;>
      simp [darkColors, lightColors] <;>
      first | linarith | (constructor <;> linarith) | (intro hh; linarith)
  · intro v t
    rcases hpal t with hp | hp <;>
      simp only [get_risk_color, hp] <;> simp <;>
      split_ifs <;>
      refine ⟨?_, ?_, ?_, ?_⟩ <;>
      simp [darkColors, lightColors] <;>
      first | linarith | (constructor <;> linarith) | (intro hh; linarith)
  · intro name hname v t
    simp at hname
    obtain ⟨hc, hr, hd, hb⟩ := hname
    simp [get_risk_color, hc, hr, hd, hb]

/-- Witness for `get_risk_color_four_tier`: the network panel gets the dark
theme's default color. -/
theorem get_risk_color_four_tier_w :
    ("network" : String) ∉ ["cpu", "ram", "disk", "battery"] ∧
    get_risk_color "network" 42 "dark" = (paletteOf "dark").defaultColor :=
  ⟨by decide, get_risk_color_four_tier.2.2.2 "network" (by decide) 42 "dark"⟩

/-- A second grid assignment at the same slot never fires: the first one left
the entry either at its non-(0,0) user position or at the slot's `y = 10`. -/
theorem gridAssign_idem (e : Option PanelConfig) (x x2 : ℤ) :
    gridAssign (gridAssign e x 10) x2 10 = gridAssign e x 10 := by
  cases e with
  | none => simp [gridAssign]
  | some pc =>
      simp only [gridAssign]
      split_ifs <;> simp_all

/-- Pointwise description of `initialize_grid_positions`: each of the six
widget keys receives `gridAssign` at its slot, every other key is untouched. -/
theorem initialize_grid_positions_apply (sw : ℤ) (cfg : Cfg) (k : String) :
    initialize_grid_positions sw cfg k =
      if k = "cpu_widget" then
        gridAssign (cfg k) (sw - 6 * 200 - 10 + ((0 : ℕ) : ℤ) * 200) 10
      else if k = "ram_widget" then
        gridAssign (cfg k) (sw - 6 * 200 - 10 + ((1 : ℕ) : ℤ) * 200) 10
      else if k = "disk_widget" then
        gridAssign (cfg k) (sw - 6 * 200 - 10 + ((2 : ℕ) : ℤ) * 200) 10
      else if k = "battery_widget" then
        gridAssign (cfg k) (sw - 6 * 200 - 10 + ((3 : ℕ) : ℤ) * 200) 10
      else if k = "risk_widget" then
        gridAssign (cfg k) (sw - 6 * 200 - 10 + ((4 : ℕ) : ℤ) * 200) 10
      else if k = "network_widget" then
        gridAssign (cfg k) (sw - 6 * 200 - 10 + ((5 : ℕ) : ℤ) * 200) 10
      else cfg k := by
  by_cases h1 : k = "cpu_widget"
  · subst h1; rfl
  by_cases h2 : k = "ram_widget"
  · subst h2; rfl
  by_cases h3 : k = "disk_widget"
  · subst h3; rfl
  by_cases h4 : k = "battery_widget"
  · subst h4; rfl
  by_cases h5 : k = "risk_widget"
  · subst h5; rfl
  by_cases h6 : k = "network_widget"
  · subst h6; rfl
  simp [initialize_grid_positions, gridWidgetNames, gridStep,
    List.range_succ, h1, h2, h3, h4, h5, h6]

/-- C9: default placement is idempotent — a second run with the same screen
width changes nothing; a panel whose stored position is already non-(0,0)
keeps its entry unchanged; and a panel absent from the config is added
enabled at its slot of the top-right row (`x = screenWidth - 6*200 - 10 +
index*200`, `y = 10`). -/
theorem initialize_grid_positions_spec (sw : ℤ) (cfg : Cfg) :
    (∀ k, initialize_grid_positions sw (initialize_grid_positions sw cfg) k
        = initialize_grid_positions sw cfg k) ∧
    (∀ k pc, cfg k = some pc → ¬(pc.x = 0 ∧ pc.y = 0) →
        initialize_grid_positions sw cfg k = some pc) ∧
    (∀ k, k ∈ gridWidgetNames → cfg k = none →
        initialize_grid_positions sw cfg k
          = some ⟨true,
              sw - 6 * 200 - 10 + (List.indexOf k gridWidgetNames : ℤ) * 200,
              10⟩) := by
  refine ⟨?_, ?_, ?_⟩
  · intro k
    rw [initialize_grid_positions_apply sw (initialize_grid_positions sw cfg) k,
      initialize_grid_positions_apply sw cfg k]
    split_ifs with h1 h2 h3 h4 h5 h6 <;>
      simp_all [gridAssign_idem]
  · intro k pc hpc hxy
    rw [initialize_grid_positions_apply sw cfg k]
    split_ifs <;> simp [gridAssign, hpc, hxy]
  · intro k hk hnone
    fin_cases hk <;>
      rw [initialize_grid_positions_apply] <;>
      simp [gridAssign, hnone, gridWidgetNames, List.indexOf,
        List.findIdx, List.findIdx.go]

/-- Witness for `initialize_grid_positions_spec` on a config holding only a
moved cpu panel: the cpu entry is preserved and the absent ram panel is
added at its slot. -/
theorem initialize_grid_positions_spec_w :
    (((fun k => if k = "cpu_widget" then some (⟨true, 5, 7⟩ : PanelConfig)
                else none) : Cfg) "cpu_widget" = some ⟨true, 5, 7⟩) ∧
    ¬((5 : ℤ) = 0 ∧ (7 : ℤ) = 0) ∧
    initialize_grid_positions 1920
        (fun k => if k = "cpu_widget" then some ⟨true, 5, 7⟩ else none)
        "cpu_widget" = some ⟨true, 5, 7⟩ ∧
    ("ram_widget" ∈ gridWidgetNames) ∧
    initialize_grid_positions 1920
        (fun k => if k = "cpu_widget" then some ⟨true, 5, 7⟩ else none)
        "ram_widget"
      = some ⟨true,
          1920 - 6 * 200 - 10 +
            (List.indexOf "ram_widget" gridWidgetNames : ℤ) * 200, 10⟩ :=
  ⟨by decide, by decide,
   (initialize_grid_positions_spec 1920
      (fun k => if k = "cpu_widget" then some ⟨true, 5, 7⟩ else none)).2.1
     "cpu_widget" ⟨true, 5, 7⟩ (by decide) (by decide),
   by decide,
   (initialize_grid_positions_spec 1920
      (fun k => if k = "cpu_widget" then some ⟨true, 5, 7⟩ else none)).2.2
     "ram_widget" (by decide) (by decide)⟩
